import Mathlib

/-!
Shallow embedding of the Acquisition-and-Reconciliation Engine of
`src/core_tracker.py` (class `SpotifyStreamTracker`), together with the
surrounding data model of `src/db_models.py`.

Modelling conventions:
* calendar dates are day numbers in `ℤ` (subtraction of dates in days is
  integer subtraction);
* Python ints are `ℤ`; Python floats are modelled as exact rationals `ℚ`
  (all arithmetic relevant to the claims is exact at this precision);
* `int(x)` on a float is truncation toward zero (`pyTrunc`);
* fallible Python code is `Except PyError _`; an attribute read on an
  object that lacks the attribute is an `attributeError`;
* the SQLAlchemy session is a `List StreamHistory`; the session factories
  in `src/main.py` and `src/scheduler.py` use `autoflush=False`, so rows
  added but not yet committed are modelled as appended only at the end of
  a processing step, and queries issued in between see the old list.
-/

set_option linter.unusedVariables false

attribute [local semireducible] Rat.add Rat.mul Rat.sub Rat.inv

namespace SpotifyTracker

/-- Exceptions relevant to the embedded code paths. -/
inductive PyError
  | valueError
  | attributeError
deriving DecidableEq

/-- Python `int(x)` on a (finite) float: truncation toward zero. -/
def pyTrunc (q : ℚ) : ℤ := if 0 ≤ q then q.floor else q.ceil

/-- Rounding to the nearest integer, used only by the spec-modelled parser
variant below ("rounds the literal to the nearest integer"). -/
def specRound (q : ℚ) : ℤ := (q + 1/2).floor

/-- Python truthiness of an integer (`if streams:` etc.). -/
def pyTruthyInt (i : ℤ) : Bool := i != 0

lemma pyTrunc_of_nonneg {q : ℚ} (h : 0 ≤ q) : pyTrunc q = ⌊q⌋ := by
  rw [pyTrunc, if_pos h, Rat.floor_def', Rat.floor_def]

/-! ## Count parser: `_extract_stream_count_helper` (src/core_tracker.py lines 127-154) -/

/-- Characters matched by the regex character class `[\d\.]`. -/
def isDigitOrDot (c : Char) : Bool := c.isDigit || c == '.'

/-- Python `str.strip()` on a character list (both ends, whitespace). -/
def pyStrip (cs : List Char) : List Char :=
  ((cs.dropWhile Char.isWhitespace).reverse.dropWhile Char.isWhitespace).reverse

/-- Python `str.lower()` restricted to the ASCII range (sufficient for the
inputs the claims concern). -/
def pyLowerChar (c : Char) : Char :=
  if 65 ≤ c.toNat ∧ c.toNat ≤ 90 then Char.ofNat (c.toNat + 32) else c

/-- The cleaning pipeline `text.strip().replace(',', '').lower()` of line 134. -/
def cleanText (s : String) : List Char :=
  ((pyStrip s.toList).filter (fun c => c ≠ ',')).map pyLowerChar

/-- `re.search(r'([\d\.]+)...', text)` locating group 1: the first maximal run
of digits/dots, returned together with the remainder of the text. -/
def findRun : List Char → Option (List Char × List Char)
  | [] => none
  | c :: cs =>
    if isDigitOrDot c then
      some ((c :: cs).takeWhile isDigitOrDot, (c :: cs).dropWhile isDigitOrDot)
    else findRun cs

/-- Decimal digit string to a natural number (left fold, empty list gives 0). -/
def digitsVal (cs : List Char) : ℕ :=
  cs.foldl (fun a c => 10 * a + (c.toNat - 48)) 0

/-- Python `float(s)` for a nonempty string of digits and dots: at most one
dot and at least one digit, else a `ValueError`.  The value is exact. -/
def pyFloatOfRun (run : List Char) : Option ℚ :=
  let dots := run.count '.'
  if dots = 0 then
    some (digitsVal run : ℚ)
  else if dots = 1 then
    let intPart := run.takeWhile (fun c => c ≠ '.')
    let fracPart := (run.dropWhile (fun c => c ≠ '.')).tail
    if intPart.isEmpty && fracPart.isEmpty then none
    else some ((digitsVal intPart : ℚ) + (digitsVal fracPart : ℚ) / (10 : ℚ) ^ fracPart.length)
  else none

/-- The regex tail `\s*([kmb])?` applied to the text after the numeric run:
skip whitespace, then an optional suffix character. -/
def suffixOf (rest : List Char) : Option Char :=
  match rest.dropWhile Char.isWhitespace with
  | c :: _ => if c = 'k' ∨ c = 'm' ∨ c = 'b' then some c else none
  | [] => none

/-- `_extract_stream_count_helper` (lines 127-154).  `Except.error` models the
uncaught `ValueError` raised by `float()` on a run of dots; the inner
`try/except ValueError` around `int(number)` at lines 149-152 is dead code
(`int` on a finite float never raises `ValueError`), so the no-suffix branch
is plain truncation. -/
def extract_stream_count_helper (text : String) : Except PyError (Option ℤ) :=
  if text.isEmpty then .ok none
  else
    match findRun (cleanText text) with
    | none => .ok none
    | some (run, rest) =>
      match pyFloatOfRun run with
      | none => .error .valueError
      | some number =>
        match suffixOf rest with
        | some 'k' => .ok (some (pyTrunc (number * 1000)))
        | some 'm' => .ok (some (pyTrunc (number * 1000000)))
        | some 'b' => .ok (some (pyTrunc (number * 1000000000)))
        | _ => .ok (some (pyTrunc number))

/-- Modelled from the spec's words (§4.1), for refinement comparison only:
identical to `extract_stream_count_helper` except that with no suffix it
"rounds the literal to the nearest integer" instead of truncating. -/
def parse_spec_rounding (text : String) : Except PyError (Option ℤ) :=
  if text.isEmpty then .ok none
  else
    match findRun (cleanText text) with
    | none => .ok none
    | some (run, rest) =>
      match pyFloatOfRun run with
      | none => .error .valueError
      | some number =>
        match suffixOf rest with
        | some 'k' => .ok (some (pyTrunc (number * 1000)))
        | some 'm' => .ok (some (pyTrunc (number * 1000000)))
        | some 'b' => .ok (some (pyTrunc (number * 1000000000)))
        | _ => .ok (some (specRound number))

/-! ## Plausibility filter: `_is_reasonable_stream_count` (lines 156-173) -/

/-- `_is_reasonable_stream_count` (lines 156-173). -/
def is_reasonable_stream_count (count : Option ℤ) : Bool :=
  match count with
  | none => false
  | some c =>
    if c < 1000 then false
    else if c > 100000000000 then false
    else if c > 10000000000 then false
    else true

/-! ## Data model: `StreamHistory` (src/db_models.py lines 59-89) -/

/-- Values of the `scrape_method` column. -/
inductive ScrapeMethod
  | requests
  | selenium
  | simulated
  | failed
deriving DecidableEq

/-- A `stream_history` row.  Dates are day numbers; column defaults follow
src/db_models.py (flag columns default to false, metadata to none). -/
structure StreamHistory where
  date : ℤ
  track_id : ℤ
  total_streams : ℤ
  daily_streams : ℤ := 0
  weekly_streams : ℤ := 0
  monthly_streams : ℤ := 0
  is_imputed : Bool := false
  is_reset : Bool := false
  is_new : Bool := false
  is_hidden : Bool := false
  is_simulated : Bool := false
  scrape_method : Option ScrapeMethod := none
  confidence_score : Option ℚ := none
deriving DecidableEq

/-! ## Historical estimate: `estimate_streams_from_history` (lines 211-261) -/

/-- The loop of lines 231-235: differences `history[i].total_streams -
history[i+1].total_streams` between consecutive rows of the (most-recent-first)
list, keeping only the strictly positive ones. -/
def daily_changes : List StreamHistory → List ℤ
  | a :: b :: rest =>
    let change := a.total_streams - b.total_streams
    if 0 < change then change :: daily_changes (b :: rest)
    else daily_changes (b :: rest)
  | _ => []

/-- Descending insertion by date, for the `ORDER BY date DESC` of the query. -/
def insertDesc (h : StreamHistory) : List StreamHistory → List StreamHistory
  | [] => [h]
  | a :: rest => if a.date < h.date then h :: a :: rest else a :: insertDesc h rest

/-- Sort rows by date, most recent first. -/
def sortByDateDesc (l : List StreamHistory) : List StreamHistory :=
  l.foldr insertDesc []

/-- The query of lines 218-221: the up-to-7 most recent rows of the track with
`is_simulated == False`, most recent first. -/
def query_recent_real (db : List StreamHistory) (track_id : ℤ) : List StreamHistory :=
  (sortByDateDesc (db.filter (fun h => h.track_id == track_id && h.is_simulated == false))).take 7

/-- The algorithmic body of `estimate_streams_from_history` (lines 223-257),
taking the query result (most recent first).  Returns
`(estimated value or none, confidence)`. -/
def estimate_from_rows (history : List StreamHistory) (today : ℤ) : Option ℤ × ℚ :=
  match history with
  | [] => (none, 0)
  | last_known :: rest =>
    let hist := last_known :: rest
    let changes := daily_changes hist
    if 2 ≤ hist.length ∧ changes ≠ [] then
      let avg : ℚ := (changes.sum : ℚ) / (changes.length : ℚ)
      let days_passed : ℤ := if today - last_known.date ≤ 0 then 1 else today - last_known.date
      let estimated := pyTrunc ((last_known.total_streams : ℚ) + avg * (days_passed : ℚ))
      let conf : ℚ := min ((hist.length : ℚ) / 7) 1 * (4/5)
      (some estimated, conf)
    else
      (some last_known.total_streams, if 3 ≤ hist.length then 1/2 else 3/10)

/-- `estimate_streams_from_history` (lines 211-261): query then estimate. -/
def estimate_streams_from_history (db : List StreamHistory) (track_id : ℤ) (today : ℤ) :
    Option ℤ × ℚ :=
  estimate_from_rows (query_recent_real db track_id) today

/-! ## Acquisition pipeline: `scrape_stream_count_with_telemetry` (lines 263-401)

`__init__` (lines 28-39) sets `playlist_url`, `playlist_id`, `sp`, `driver`,
`tracks_data` and `session`, and no statement anywhere in the repository ever
assigns `self.scrape_stats`; the attribute is therefore absent on every
tracker object, modelled as `none`.  Every `self.scrape_stats[...] += 1`
raises `AttributeError`. -/

/-- Per-run counters the code reads and increments but never creates. -/
structure ScrapeStats where
  requests_success : ℕ := 0
  selenium_success : ℕ := 0
  simulated : ℕ := 0
  failed : ℕ := 0
deriving DecidableEq

/-- The value of `self.scrape_stats` on every `SpotifyStreamTracker` object:
the attribute is never assigned, so it is absent. -/
def initial_scrape_stats : Option ScrapeStats := none

instance {ε α : Type} [DecidableEq ε] [DecidableEq α] : DecidableEq (Except ε α) := fun x y =>
  match x, y with
  | .ok a, .ok b =>
    if h : a = b then .isTrue (by rw [h]) else .isFalse (by simp [h])
  | .error a, .error b =>
    if h : a = b then .isTrue (by rw [h]) else .isFalse (by simp [h])
  | .ok _, .error _ => .isFalse (by simp)
  | .error _, .ok _ => .isFalse (by simp)

/-- Result of one pipeline invocation: the returned triple or the escaping
exception, the final `scrape_stats` attribute, and whether the browser tier
and the estimate tier were reached. -/
structure ScrapeOutcome where
  result : Except PyError (ℤ × ScrapeMethod × ℚ)
  stats : Option ScrapeStats
  consulted_selenium : Bool
  consulted_estimate : Bool
deriving DecidableEq

/-- Lines 316-337: the loop over the playcount elements found by the direct
element query.  Each element's text is stripped, required to contain a digit,
parsed and plausibility-checked; any exception inside the loop body (including
the `AttributeError` from the stats increment at line 330, and a `ValueError`
from the parser) is caught by the handler at line 335 and the loop continues
with the next element. -/
def elem_try (stats : Option ScrapeStats) (text : String) : Option (ℤ × ScrapeStats) :=
  let t := (pyStrip text.toList).asString
  if !t.isEmpty && t.toList.any Char.isDigit then
    match extract_stream_count_helper t with
    | .error _ => none
    | .ok none => none
    | .ok (some streams) =>
      if pyTruthyInt streams && is_reasonable_stream_count (some streams) then
        match stats with
        | none => none
        | some st => some (streams, { st with selenium_success := st.selenium_success + 1 })
      else none
  else none

/-- The loop of lines 316-337 over the playcount elements. -/
def elem_loop (stats : Option ScrapeStats) : List String → Option (ℤ × ScrapeStats)
  | [] => none
  | text :: rest =>
    match elem_try stats text with
    | some r => some r
    | none => elem_loop stats rest

/-- Lines 361-370: the loop over the texts returned by the in-page script.
Here an exception (`ValueError` from the parser, `AttributeError` from the
stats increment at line 367) aborts the whole JavaScript block via the handler
at line 371, yielding nothing. -/
def js_loop (stats : Option ScrapeStats) : List String → Option (ℤ × ScrapeStats)
  | [] => none
  | text :: rest =>
    match extract_stream_count_helper text with
    | .error _ => none
    | .ok none => js_loop stats rest
    | .ok (some streams) =>
      if pyTruthyInt streams && is_reasonable_stream_count (some streams) then
        match stats with
        | none => none
        | some st => some (streams, { st with selenium_success := st.selenium_success + 1 })
      else js_loop stats rest

/-- Lines 343-372: the in-page script collects the trimmed element texts that
contain a digit, then the Python loop parses them. -/
def js_block (stats : Option ScrapeStats) (jsTexts : List String) : Option (ℤ × ScrapeStats) :=
  js_loop stats
    ((jsTexts.map (fun t => (pyStrip t.toList).asString)).filter
      (fun t => !t.isEmpty && t.toList.any Char.isDigit))

/-- Lines 294-389: the two browser attempts; each attempt tries the direct
element query then the JavaScript fallback. -/
def attempts_loop (stats : Option ScrapeStats) :
    List (List String × List String) → Option (ℤ × ScrapeStats)
  | [] => none
  | (elems, js) :: rest =>
    match elem_loop stats elems with
    | some r => some r
    | none =>
      match js_block stats js with
      | some r => some r
      | none => attempts_loop stats rest

/-- Lines 398-401: complete failure.  The `failed` increment precedes the
return, so it raises when the attribute is absent. -/
def failed_exit (stats : Option ScrapeStats) (tried_selenium : Bool) : ScrapeOutcome :=
  match stats with
  | none => ⟨.error .attributeError, none, tried_selenium, true⟩
  | some st => ⟨.ok (0, .failed, 0), some { st with failed := st.failed + 1 }, tried_selenium, true⟩

/-- Lines 284-290 and 391-397: the simulation fallback.  `if estimated:` is
Python truthiness, so both `None` and an estimate of 0 fall to the failure
exit; the `simulated` increment precedes the return. -/
def simulation_exit (stats : Option ScrapeStats) (db : List StreamHistory) (track_id : ℤ)
    (today : ℤ) (tried_selenium : Bool) : ScrapeOutcome :=
  match estimate_streams_from_history db track_id today with
  | (some v, conf) =>
    if pyTruthyInt v then
      match stats with
      | none => ⟨.error .attributeError, none, tried_selenium, true⟩
      | some st =>
        ⟨.ok (v, .simulated, conf), some { st with simulated := st.simulated + 1 },
          tried_selenium, true⟩
    else failed_exit stats tried_selenium
  | (none, _) => failed_exit stats tried_selenium

/-- Lines 268-276, the requests tier of `scrape_stream_count_with_telemetry`:
`fetch_res` is what `fetch_stream_count_requests` returned (that function
catches all of its own exceptions).  The stats increment at line 273 sits
inside the `try/except Exception: pass` of lines 269-276, so when the
attribute is absent its `AttributeError` is swallowed and the plausible
value is discarded (the tier yields nothing). -/
def requests_try (stats : Option ScrapeStats) (fetch_res : Option ℤ) :
    Option (ℤ × ScrapeStats) :=
  match fetch_res with
  | none => none
  | some streams =>
    if pyTruthyInt streams && is_reasonable_stream_count (some streams) then
      match stats with
      | none => none
      | some st => some (streams, { st with requests_success := st.requests_success + 1 })
    else none

/-- `scrape_stream_count_with_telemetry` (lines 263-401): the full tier
chain.  Oracle inputs stand for the external world: `driver_ready` is
whether `self.driver` is already set, `setup_ok` is what `setup_driver()`
would return, and `attempts` carries the playcount texts each browser
attempt would observe (element query, script query). -/
def scrape_stream_count_with_telemetry (scrape_stats : Option ScrapeStats)
    (fetch_res : Option ℤ) (driver_ready : Bool) (setup_ok : Bool)
    (attempts : List (List String × List String))
    (db : List StreamHistory) (track_id : ℤ) (today : ℤ) : ScrapeOutcome :=
  match requests_try scrape_stats fetch_res with
  | some (s, st) => ⟨.ok (s, .requests, 1), some st, false, false⟩
  | none =>
    if !driver_ready && !setup_ok then
      simulation_exit scrape_stats db track_id today false
    else
      match attempts_loop scrape_stats attempts with
      | some (s, st) => ⟨.ok (s, .selenium, 1), some st, true, false⟩
      | none => simulation_exit scrape_stats db track_id today true

/-! ## Aggregate calculator: `calculate_aggregates` (lines 403-428) -/

/-- `calculate_aggregates` (lines 403-428): sums of `daily_streams` of the
track's rows in `[today-6, today)` resp. `[today-29, today)`, each plus
`today_daily`.  There is no minimum-record condition in the code. -/
def calculate_aggregates (db : List StreamHistory) (track_id : ℤ) (today_daily : ℤ)
    (today_date : ℤ) : ℤ × ℤ :=
  let week_start := today_date - 6
  let week_history := db.filter
    (fun h => h.track_id == track_id && decide (week_start ≤ h.date) && decide (h.date < today_date))
  let weekly_sum := (week_history.map (fun h => h.daily_streams)).sum + today_daily
  let month_start := today_date - 29
  let month_history := db.filter
    (fun h => h.track_id == track_id && decide (month_start ≤ h.date) && decide (h.date < today_date))
  let monthly_sum := (month_history.map (fun h => h.daily_streams)).sum + today_daily
  (weekly_sum, monthly_sum)

/-! ## Reconciliation: the per-track body of `run_and_save` (lines 484-587) -/

/-- The idempotency query of lines 484-489: does a row for this track and
date exist. -/
def has_record_on (db : List StreamHistory) (track_id : ℤ) (today : ℤ) : Bool :=
  db.any (fun h => h.track_id == track_id && h.date == today)

/-- The query of lines 503-505: the track's most recent row
(`ORDER BY date DESC ... first()`). -/
def last_record (db : List StreamHistory) (track_id : ℤ) : Option StreamHistory :=
  (db.filter (fun h => h.track_id == track_id)).foldl
    (fun acc h =>
      match acc with
      | none => some h
      | some a => if a.date < h.date then some h else acc) none

/-- Result of processing one track: the session contents after the per-item
commit, and whether the acquisition pipeline was invoked at all. -/
structure ProcessResult where
  db : List StreamHistory
  acquisition_invoked : Bool
deriving DecidableEq

/-- One synthetic gap row as built at lines 538-553 (`i` counts from 1). -/
def imputed_row (track_id : ℤ) (last : StreamHistory) (daily_average : ℤ) (i : ℤ) :
    StreamHistory :=
  { date := last.date + i
    track_id := track_id
    total_streams := last.total_streams + daily_average * i
    daily_streams := daily_average
    weekly_streams := 0
    monthly_streams := 0
    is_imputed := true
    is_new := false
    is_reset := false
    is_hidden := false }

/-- The classification block of lines 519-562: given the (possibly
substituted) total and the most recent prior row, produce
`(is_new, is_reset, is_imputed, daily_diff, synthesized gap rows)`. -/
def classify (track_id : ℤ) (today_date : ℤ) (total_streams : ℤ) :
    Option StreamHistory → Bool × Bool × Bool × ℤ × List StreamHistory
  | none => (true, false, false, 0, [])
  | some l =>
    let days_gap := today_date - l.date
    if 1 < days_gap then
      let raw_diff := total_streams - l.total_streams
      if raw_diff < 0 then
        (false, true, false, 0, [])
      else
        let daily_average := pyTrunc ((raw_diff : ℚ) / (days_gap : ℚ))
        (false, false, true, daily_average,
          (List.range (days_gap - 1).toNat).map
            (fun (i : ℕ) => imputed_row track_id l daily_average ((i : ℤ) + 1)))
    else if total_streams < l.total_streams then
      (false, true, false, 0, [])
    else
      (false, false, false, total_streams - l.total_streams, [])

/-- The per-track body of `run_and_save` (lines 484-587), after the
acquisition pipeline has produced `acq = (total_streams, scrape_method,
confidence)`.  If today's row already exists the track is silently skipped
before any acquisition (lines 491-493).  Otherwise the observation is
classified, gap rows are synthesized when needed, aggregates are computed
(over the committed rows only: the session has `autoflush=False`, so the
pending gap rows are invisible to the queries of `calculate_aggregates`),
and today's row is appended; everything is committed at line 587. -/
def process_track (db : List StreamHistory) (track_id : ℤ) (today_date : ℤ)
    (acq : ℤ × ScrapeMethod × ℚ) : ProcessResult :=
  if has_record_on db track_id today_date then ⟨db, false⟩
  else
    let scraped := acq.1
    let method := acq.2.1
    let conf := acq.2.2
    let last_entry := last_record db track_id
    let is_hidden := scraped == 0
    let is_simulated := method == ScrapeMethod.simulated
    let total_streams :=
      match last_entry with
      | some l => if scraped == 0 then l.total_streams else scraped
      | none => scraped
    let cls := classify track_id today_date total_streams last_entry
    let is_new := cls.1
    let is_reset := cls.2.1
    let is_imputed := cls.2.2.1
    let daily_diff := cls.2.2.2.1
    let gap_rows := cls.2.2.2.2
    let sums := calculate_aggregates db track_id daily_diff today_date
    let new_history : StreamHistory :=
      { date := today_date
        track_id := track_id
        total_streams := total_streams
        daily_streams := daily_diff
        weekly_streams := sums.1
        monthly_streams := sums.2
        is_new := is_new
        is_reset := is_reset
        is_imputed := is_imputed
        is_hidden := is_hidden
        is_simulated := is_simulated
        scrape_method := some method
        confidence_score := if is_simulated then some conf else none }
    ⟨db ++ gap_rows ++ [new_history], true⟩

/-! ## Helper lemmas -/

lemma mem_of_mem_dropWhile {α : Type} {p : α → Bool} {x : α} :
    ∀ {l : List α}, x ∈ l.dropWhile p → x ∈ l
  | [], h => h
  | a :: l, h => by
    rw [List.dropWhile_cons] at h
    by_cases hp : p a = true
    · simp only [hp, if_true] at h
      exact List.mem_cons_of_mem a (mem_of_mem_dropWhile h)
    · simp only [hp, if_false] at h
      exact h

lemma mem_of_mem_pyStrip {x : Char} {l : List Char} (h : x ∈ pyStrip l) : x ∈ l := by
  unfold pyStrip at h
  rw [List.mem_reverse] at h
  have h2 := mem_of_mem_dropWhile h
  rw [List.mem_reverse] at h2
  exact mem_of_mem_dropWhile h2

lemma pyLowerChar_not_digitOrDot {c : Char} (h : isDigitOrDot c = false) :
    isDigitOrDot (pyLowerChar c) = false := by
  unfold pyLowerChar
  split_ifs with hc
  · obtain ⟨h1, h2⟩ := hc
    generalize hg : c.toNat = n at h1 h2
    interval_cases n <;> decide
  · exact h

lemma findRun_eq_none {cs : List Char} (h : ∀ c ∈ cs, isDigitOrDot c = false) :
    findRun cs = none := by
  induction cs with
  | nil => rfl
  | cons c rest ih =>
    unfold findRun
    rw [h c (List.mem_cons_self c rest)]
    simp only [Bool.false_eq_true, if_false]
    exact ih (fun x hx => h x (List.mem_cons_of_mem c hx))

lemma cleanText_no_digitOrDot {text : String}
    (h : ∀ c ∈ text.toList, isDigitOrDot c = false) :
    ∀ c ∈ cleanText text, isDigitOrDot c = false := by
  intro c hc
  unfold cleanText at hc
  obtain ⟨c0, hc0, rfl⟩ := List.mem_map.mp hc
  have hmem : c0 ∈ text.toList := mem_of_mem_pyStrip (List.mem_filter.mp hc0).1
  exact pyLowerChar_not_digitOrDot (h c0 hmem)

/-! ## Claim theorems -/

/-- Claim C10: the plausibility check rejects `none`, accepts exactly the
integers in `[1000, 10^10]` (so values above either upper bound,
100 billion or 10 billion, are rejected), with the stated boundary
behaviour. -/
theorem claim_C10_plausibility :
    is_reasonable_stream_count none = false ∧
    (∀ c : ℤ, is_reasonable_stream_count (some c) = true ↔ 1000 ≤ c ∧ c ≤ 10000000000) ∧
    is_reasonable_stream_count (some 999) = false ∧
    is_reasonable_stream_count (some 1000) = true ∧
    is_reasonable_stream_count (some 10000000000) = true ∧
    is_reasonable_stream_count (some 10000000001) = false ∧
    is_reasonable_stream_count (some 200000000000) = false := by
  refine ⟨rfl, ?_, by decide, by decide, by decide, by decide, by decide⟩
  intro c
  simp only [is_reasonable_stream_count]
  split_ifs <;> simp <;> omega

/-- Claim C6, counterexample: on the suffix-free literal "1.7" the code
truncates to 1, whereas rounding to the nearest integer (what the claim
states for the no-suffix case) gives 2. -/
theorem claim_C6_counterexample :
    extract_stream_count_helper "1.7" = .ok (some 1) ∧
    parse_spec_rounding "1.7" = .ok (some 2) ∧ (1 : ℤ) ≠ 2 := by
  refine ⟨by decide, by decide, by decide⟩

/-- Claim C6, amended: the parser strips separators and whitespace and
matches the first numeric literal with optional case-insensitive k/m/b
suffix; with a suffix it multiplies by 1e3/1e6/1e9 and truncates; with no
suffix it truncates the literal toward zero (it does not round: "1.7"
parses to 1); it returns none when the text contains no digit and no dot;
and the spec's concrete examples hold. -/
theorem claim_C6_amended :
    extract_stream_count_helper "1.2M" = .ok (some 1200000) ∧
    extract_stream_count_helper "45,000" = .ok (some 45000) ∧
    extract_stream_count_helper "123K" = .ok (some 123000) ∧
    extract_stream_count_helper "no digits" = .ok none ∧
    extract_stream_count_helper "1.7" = .ok (some 1) ∧
    ∀ text : String, (∀ c ∈ text.toList, isDigitOrDot c = false) →
      extract_stream_count_helper text = .ok none := by
  refine ⟨by decide, by decide, by decide, by decide, by decide, ?_⟩
  intro text h
  have hfr : findRun (cleanText text) = none :=
    findRun_eq_none (cleanText_no_digitOrDot h)
  by_cases he : text.isEmpty <;> simp [extract_stream_count_helper, he, hfr]

/-- Claim C6, witness for the amended general clause at a concrete input. -/
theorem claim_C6_witness : extract_stream_count_helper "xyz" = .ok none :=
  claim_C6_amended.2.2.2.2.2 "xyz" (by decide)

/-- A track with exactly three days of prior history, daily deltas 100. -/
def dbThreeDays : List StreamHistory :=
  [{ date := 97, track_id := 1, total_streams := 100, daily_streams := 100 },
   { date := 98, track_id := 1, total_streams := 200, daily_streams := 100 },
   { date := 99, track_id := 1, total_streams := 300, daily_streams := 100 }]

/-- Claim C1, counterexample: an item with only 3 days of total history and
today's delta 50 gets weekly_sum = monthly_sum = 350, not the sentinel 0 the
claim requires for fewer than 6 resp. 29 prior records. -/
theorem claim_C1_counterexample :
    calculate_aggregates dbThreeDays 1 50 100 = (350, 350) ∧ (350 : ℤ) ≠ 0 :=
  ⟨by decide, by decide⟩

/-- Claim C1, amended: the aggregates are unconditionally the sum of
daily_delta over the trailing window ([today-6, today) for weekly,
[today-29, today) for monthly) plus today's delta; no minimum count of
existing records is required and 0 is never produced as a sentinel. -/
theorem claim_C1_amended (db : List StreamHistory) (tid d today : ℤ) :
    calculate_aggregates db tid d today =
      (((db.filter (fun h => h.track_id == tid &&
          decide (h.date ∈ Finset.Ico (today - 6) today))).map
            (fun h => h.daily_streams)).sum + d,
       ((db.filter (fun h => h.track_id == tid &&
          decide (h.date ∈ Finset.Ico (today - 29) today))).map
            (fun h => h.daily_streams)).sum + d) := by
  have key : ∀ (x y : ℤ) (h : StreamHistory),
      (h.track_id == tid && decide (x ≤ h.date) && decide (h.date < y)) =
      (h.track_id == tid && decide (h.date ∈ Finset.Ico x y)) := by
    intro x y h
    rw [decide_eq_decide.mpr (Finset.mem_Ico (a := x) (b := y) (x := h.date)),
      Bool.decide_and, Bool.and_assoc]
  simp only [calculate_aggregates]
  rw [List.filter_congr (fun h _ => key (today - 6) today h),
    List.filter_congr (fun h _ => key (today - 29) today h)]

/-- Claim C2 (code bug witness): a freshly constructed tracker (on which the
`scrape_stats` attribute was never created) whose Fast Fetch tier returns the
plausible count 1,000,000 does not make the pipeline return
`(1000000, requests, 1.0)`: the `AttributeError` raised by the stats
increment is swallowed, the plausible value is discarded, and the run ends in
an escaping `AttributeError` instead of any returned triple. -/
theorem claim_C2_bug_eval :
    scrape_stream_count_with_telemetry initial_scrape_stats (some 1000000) false false
        [] [] 1 0 =
      ⟨.error .attributeError, none, false, true⟩ := by decide

lemma elem_try_stats_none (t : String) : elem_try none t = none := by
  simp only [elem_try]
  split_ifs with h1
  · split
    · rfl
    · rfl
    · split_ifs <;> rfl
  · rfl

lemma elem_loop_stats_none (l : List String) : elem_loop none l = none := by
  induction l with
  | nil => rfl
  | cons t rest ih =>
    unfold elem_loop
    rw [elem_try_stats_none, ih]

lemma js_loop_stats_none (l : List String) : js_loop none l = none := by
  induction l with
  | nil => rfl
  | cons t rest ih =>
    unfold js_loop
    split
    · rfl
    · exact ih
    · split_ifs with h2
      · rfl
      · exact ih

lemma js_block_stats_none (js : List String) : js_block none js = none :=
  js_loop_stats_none _

lemma attempts_loop_stats_none (l : List (List String × List String)) :
    attempts_loop none l = none := by
  induction l with
  | nil => rfl
  | cons a rest ih =>
    obtain ⟨elems, js⟩ := a
    unfold attempts_loop
    simp only [elem_loop_stats_none, js_block_stats_none, ih]

lemma simulation_exit_stats_none (db : List StreamHistory) (tid today : ℤ) (tr : Bool) :
    simulation_exit none db tid today tr = ⟨.error .attributeError, none, tr, true⟩ := by
  unfold simulation_exit failed_exit
  split
  · split_ifs <;> rfl
  · rfl

lemma requests_try_stats_none (fr : Option ℤ) : requests_try none fr = none := by
  unfold requests_try
  split
  · rfl
  · split_ifs <;> rfl

/-- Claim C3: because `scrape_stats` is never created, a plausible Fast Fetch
result is discarded (the increment's `AttributeError` is swallowed by the
surrounding handler), the pipeline falls through to the browser tier when a
driver is available, and every invocation that reaches the simulated or
failed outcome raises `AttributeError` out of the pipeline instead of
returning a triple — in fact with the attribute absent every invocation ends
in that escaping `AttributeError`. -/
theorem claim_C3_uninitialized_stats (v : ℤ) (dr so : Bool)
    (atts : List (List String × List String)) (db : List StreamHistory) (tid today : ℤ)
    (hp : pyTruthyInt v = true) (hr : is_reasonable_stream_count (some v) = true) :
    (scrape_stream_count_with_telemetry initial_scrape_stats (some v) dr so
        atts db tid today).result = .error .attributeError ∧
    (scrape_stream_count_with_telemetry initial_scrape_stats (some v) dr so
        atts db tid today).result ≠ .ok (v, .requests, 1) ∧
    (dr = true →
      (scrape_stream_count_with_telemetry initial_scrape_stats (some v) dr so
          atts db tid today).consulted_selenium = true) := by
  have hmain : ∀ dr2 : Bool,
      scrape_stream_count_with_telemetry initial_scrape_stats (some v) dr2 so
          atts db tid today =
        ⟨.error .attributeError, none, dr2 || so, true⟩ := by
    intro dr2
    unfold scrape_stream_count_with_telemetry initial_scrape_stats
    simp only [requests_try_stats_none, attempts_loop_stats_none,
      simulation_exit_stats_none]
    cases dr2 <;> cases so <;> rfl
  refine ⟨?_, ?_, ?_⟩
  · rw [hmain dr]
  · rw [hmain dr]
    simp
  · intro hdr
    rw [hmain dr, hdr]
    rfl

/-- Claim C3, witness at a concrete input. -/
theorem claim_C3_witness :
    (scrape_stream_count_with_telemetry initial_scrape_stats (some 1000000) true true
        [([], [])] [] 1 0).result = .error .attributeError ∧
    (scrape_stream_count_with_telemetry initial_scrape_stats (some 1000000) true true
        [([], [])] [] 1 0).result ≠ .ok (1000000, .requests, 1) ∧
    (true = true →
      (scrape_stream_count_with_telemetry initial_scrape_stats (some 1000000) true true
          [([], [])] [] 1 0).consulted_selenium = true) :=
  claim_C3_uninitialized_stats 1000000 true true [([], [])] [] 1 0 (by decide) (by decide)

/-! ## Reconciliation lemmas -/

lemma process_track_skip (db : List StreamHistory) (tid today : ℤ)
    (acq : ℤ × ScrapeMethod × ℚ) (h : has_record_on db tid today = true) :
    process_track db tid today acq = ⟨db, false⟩ := by
  unfold process_track
  rw [if_pos h]

lemma classify_rows_bound (tid today total : ℤ) (ol : Option StreamHistory) :
    ∀ r ∈ (classify tid today total ol).2.2.2.2, r.track_id = tid ∧ r.date < today := by
  intro r hr
  rcases ol with _ | l
  · simp [classify] at hr
  · simp only [classify] at hr
    split_ifs at hr with h1 h2
    · simp at hr
    · obtain ⟨i, hi, rfl⟩ := List.mem_map.mp hr
      rw [List.mem_range] at hi
      refine ⟨rfl, ?_⟩
      show l.date + ((i : ℤ) + 1) < today
      omega
    · simp at hr
    · simp at hr

/-- The number of rows of the track dated `today` (the uniqueness query). -/
def countToday (db : List StreamHistory) (tid today : ℤ) : ℕ :=
  (db.filter (fun h => h.track_id == tid && h.date == today)).length

lemma process_track_fresh_parts (db : List StreamHistory) (tid today : ℤ)
    (acq : ℤ × ScrapeMethod × ℚ) (h : has_record_on db tid today = false) :
    ∃ rows rec, process_track db tid today acq = ⟨db ++ rows ++ [rec], true⟩ ∧
      rec.track_id = tid ∧ rec.date = today ∧
      ∀ r ∈ rows, r.track_id = tid ∧ r.date < today := by
  simp only [process_track, h, Bool.false_eq_true, if_false]
  exact ⟨_, _, rfl, rfl, rfl, classify_rows_bound tid today _ _⟩

/-- Claim C7: an item whose record for today exists is skipped before any
acquisition; running the engine on a fresh item and then again produces
exactly one record for (item, today), the second invocation returning the
ledger unchanged with the acquisition pipeline never invoked. -/
theorem claim_C7_idempotent (db : List StreamHistory) (tid today : ℤ)
    (acq acq2 : ℤ × ScrapeMethod × ℚ)
    (hfresh : has_record_on db tid today = false) :
    countToday (process_track db tid today acq).db tid today = 1 ∧
    process_track (process_track db tid today acq).db tid today acq2 =
      ⟨(process_track db tid today acq).db, false⟩ ∧
    ∀ db2 : List StreamHistory, has_record_on db2 tid today = true →
      process_track db2 tid today acq2 = ⟨db2, false⟩ := by
  obtain ⟨rows, rec, heq, htr, hdate, hrows⟩ :=
    process_track_fresh_parts db tid today acq hfresh
  have hdb : (process_track db tid today acq).db = db ++ rows ++ [rec] := by rw [heq]
  have hpred : (fun h : StreamHistory => h.track_id == tid && h.date == today) rec = true := by
    simp [htr, hdate]
  have h1 : db.filter (fun h => h.track_id == tid && h.date == today) = [] := by
    rw [List.filter_eq_nil_iff]
    intro a ha hpa
    have : has_record_on db tid today = true :=
      List.any_eq_true.mpr ⟨a, ha, hpa⟩
    rw [hfresh] at this
    cases this
  have h2 : rows.filter (fun h => h.track_id == tid && h.date == today) = [] := by
    rw [List.filter_eq_nil_iff]
    intro a ha hpa
    have hlt := (hrows a ha).2
    have : a.date = today := by
      have := (Bool.and_eq_true _ _).mp hpa
      exact beq_iff_eq.mp this.2
    omega
  have hcount : countToday (db ++ rows ++ [rec]) tid today = 1 := by
    unfold countToday
    rw [List.filter_append, List.filter_append, h1, h2, List.filter_cons, if_pos hpred]
    rfl
  have hhas : has_record_on (db ++ rows ++ [rec]) tid today = true := by
    unfold has_record_on
    refine List.any_eq_true.mpr ⟨rec, ?_, hpred⟩
    simp
  refine ⟨hdb ▸ hcount, ?_, ?_⟩
  · rw [hdb]
    exact process_track_skip _ _ _ _ hhas
  · intro db2 hrec
    exact process_track_skip _ _ _ _ hrec

/-- Claim C7, witness: a brand-new item processed twice. -/
theorem claim_C7_witness :
    countToday (process_track [] 1 100 (50000, .requests, 1)).db 1 100 = 1 ∧
    process_track (process_track [] 1 100 (50000, .requests, 1)).db 1 100
        (50000, .requests, 1) =
      ⟨(process_track [] 1 100 (50000, .requests, 1)).db, false⟩ ∧
    ∀ db2 : List StreamHistory, has_record_on db2 1 100 = true →
      process_track db2 1 100 (50000, .requests, 1) = ⟨db2, false⟩ :=
  claim_C7_idempotent [] 1 100 (50000, .requests, 1) (50000, .requests, 1) (by decide)

/-- Claim C8: whenever a nonzero acquired total is lower than the last
record's total, the engine writes exactly one new row, classified Reset with
daily_delta 0, storing the newly acquired (lower) total. -/
theorem claim_C8_reset (db : List StreamHistory) (tid today : ℤ)
    (acq : ℤ × ScrapeMethod × ℚ) (l : StreamHistory)
    (hfresh : has_record_on db tid today = false)
    (hl : last_record db tid = some l)
    (hnz : acq.1 ≠ 0)
    (hlt : acq.1 < l.total_streams) :
    (process_track db tid today acq).db =
      db ++ [{ date := today, track_id := tid, total_streams := acq.1,
               daily_streams := 0,
               weekly_streams := (calculate_aggregates db tid 0 today).1,
               monthly_streams := (calculate_aggregates db tid 0 today).2,
               is_imputed := false, is_reset := true, is_new := false,
               is_hidden := false,
               is_simulated := acq.2.1 == ScrapeMethod.simulated,
               scrape_method := some acq.2.1,
               confidence_score :=
                 if acq.2.1 == ScrapeMethod.simulated then some acq.2.2 else none }] := by
  have hbeq : (acq.1 == 0) = false := beq_eq_false_iff_ne.mpr hnz
  have hcls : classify tid today acq.1 (some l) = (false, true, false, 0, []) := by
    simp only [classify]
    split_ifs with h1 h2
    · rfl
    · omega
    · rfl
  simp only [process_track, hfresh, Bool.false_eq_true, if_false, hl, hbeq, hcls]
  simp

/-- Claim C8, witness at the spec's example: last total 500000, today's
acquired total 400000 with gap 1. -/
theorem claim_C8_witness :
    (process_track [{ date := 99, track_id := 1, total_streams := 500000 }] 1 100
        (400000, .selenium, 1)).db =
      [{ date := 99, track_id := 1, total_streams := 500000 }] ++
        [{ date := 100, track_id := 1, total_streams := 400000,
           daily_streams := 0,
           weekly_streams :=
             (calculate_aggregates [{ date := 99, track_id := 1, total_streams := 500000 }]
               1 0 100).1,
           monthly_streams :=
             (calculate_aggregates [{ date := 99, track_id := 1, total_streams := 500000 }]
               1 0 100).2,
           is_imputed := false, is_reset := true, is_new := false,
           is_hidden := false,
           is_simulated := ScrapeMethod.selenium == ScrapeMethod.simulated,
           scrape_method := some .selenium,
           confidence_score :=
             if ScrapeMethod.selenium == ScrapeMethod.simulated then some 1 else none }] :=
  claim_C8_reset [{ date := 99, track_id := 1, total_streams := 500000 }] 1 100
    (400000, .selenium, 1) { date := 99, track_id := 1, total_streams := 500000 }
    (by decide) (by decide) (by decide) (by decide)

/-- The last record of the track dated one day in the future of the run. -/
def dbFutureRow : StreamHistory := { date := 11, track_id := 1, total_streams := 1000 }

/-- Claim C5, counterexample: with the last record dated in the future
(gap = -1 ≤ 0) and acquired total 1500, the engine does not treat the
non-positive gap as a logic error and does not skip the item: it silently
writes a Standard record with daily_delta 500. -/
theorem claim_C5_counterexample :
    (process_track [dbFutureRow] 1 10 (1500, .requests, 1)).db.length = 2 ∧
    (process_track [dbFutureRow] 1 10 (1500, .requests, 1)).db.getLast? =
      some { date := 10, track_id := 1, total_streams := 1500, daily_streams := 500,
             weekly_streams := 500, monthly_streams := 500,
             scrape_method := some .requests } :=
  ⟨by decide, by decide⟩

/-- Claim C5, amended: a non-positive computed gap is not raised as an error
and the item is not skipped; the engine reconciles it through the single-day
branch, classifying Reset (delta 0) when the total decreased and Standard
(delta = difference) otherwise, and writes today's record. -/
theorem claim_C5_amended (db : List StreamHistory) (tid today : ℤ)
    (acq : ℤ × ScrapeMethod × ℚ) (l : StreamHistory)
    (hfresh : has_record_on db tid today = false)
    (hl : last_record db tid = some l)
    (hgap : today - l.date ≤ 0)
    (hnz : acq.1 ≠ 0) :
    (process_track db tid today acq).db =
      db ++ [{ date := today, track_id := tid, total_streams := acq.1,
               daily_streams :=
                 if acq.1 < l.total_streams then 0 else acq.1 - l.total_streams,
               weekly_streams :=
                 (calculate_aggregates db tid
                   (if acq.1 < l.total_streams then 0 else acq.1 - l.total_streams) today).1,
               monthly_streams :=
                 (calculate_aggregates db tid
                   (if acq.1 < l.total_streams then 0 else acq.1 - l.total_streams) today).2,
               is_imputed := false,
               is_reset := decide (acq.1 < l.total_streams),
               is_new := false, is_hidden := false,
               is_simulated := acq.2.1 == ScrapeMethod.simulated,
               scrape_method := some acq.2.1,
               confidence_score :=
                 if acq.2.1 == ScrapeMethod.simulated then some acq.2.2 else none }] := by
  have hbeq : (acq.1 == 0) = false := beq_eq_false_iff_ne.mpr hnz
  by_cases hlt : acq.1 < l.total_streams
  · have hcls : classify tid today acq.1 (some l) = (false, true, false, 0, []) := by
      simp only [classify]
      split_ifs with h1 h2
      · omega
      · omega
      · rfl
    simp only [process_track, hfresh, Bool.false_eq_true, if_false, hl, hbeq, hcls]
    simp [hlt]
  · have hcls : classify tid today acq.1 (some l) =
        (false, false, false, acq.1 - l.total_streams, []) := by
      simp only [classify]
      split_ifs with h1 h2
      · omega
      · omega
      · rfl
    simp only [process_track, hfresh, Bool.false_eq_true, if_false, hl, hbeq, hcls]
    simp [hlt]

/-- Claim C5, witness: last record one day in the future, acquired 2000. -/
theorem claim_C5_witness :
    (process_track [{ date := 6, track_id := 1, total_streams := 1000 }] 1 5
        (2000, .requests, 1)).db =
      [{ date := 6, track_id := 1, total_streams := 1000 }] ++
        [{ date := 5, track_id := 1, total_streams := 2000,
           daily_streams := if (2000 : ℤ) < 1000 then 0 else 2000 - 1000,
           weekly_streams :=
             (calculate_aggregates [{ date := 6, track_id := 1, total_streams := 1000 }] 1
               (if (2000 : ℤ) < 1000 then 0 else 2000 - 1000) 5).1,
           monthly_streams :=
             (calculate_aggregates [{ date := 6, track_id := 1, total_streams := 1000 }] 1
               (if (2000 : ℤ) < 1000 then 0 else 2000 - 1000) 5).2,
           is_imputed := false,
           is_reset := decide ((2000 : ℤ) < 1000),
           is_new := false, is_hidden := false,
           is_simulated := ScrapeMethod.requests == ScrapeMethod.simulated,
           scrape_method := some .requests,
           confidence_score :=
             if ScrapeMethod.requests == ScrapeMethod.simulated then some 1 else none }] :=
  claim_C5_amended [{ date := 6, track_id := 1, total_streams := 1000 }] 1 5
    (2000, .requests, 1) { date := 6, track_id := 1, total_streams := 1000 }
    (by decide) (by decide) (by decide) (by decide)

lemma pyTrunc_intCast_div (a b : ℤ) (ha : 0 ≤ a) (hb : 0 < b) :
    pyTrunc ((a : ℚ) / (b : ℚ)) = a / b := by
  have hb0 : (0 : ℚ) < (b : ℚ) := by exact_mod_cast hb
  have hq : (0 : ℚ) ≤ (a : ℚ) / (b : ℚ) :=
    div_nonneg (by exact_mod_cast ha) hb0.le
  rw [pyTrunc_of_nonneg hq]
  have hbn : ((b.toNat : ℕ) : ℚ) = (b : ℚ) := by
    rw [← Int.cast_natCast, Int.toNat_of_nonneg hb.le]
  rw [← hbn, Rat.floor_intCast_div_natCast a b.toNat, Int.toNat_of_nonneg hb.le]

lemma classify_imputed (tid today total : ℤ) (l : StreamHistory)
    (hgap : 1 < today - l.date) (hraw : 0 ≤ total - l.total_streams) :
    classify tid today total (some l) =
      (false, false, true, (total - l.total_streams) / (today - l.date),
        (List.range (today - l.date - 1).toNat).map
          (fun (i : ℕ) =>
            imputed_row tid l ((total - l.total_streams) / (today - l.date)) ((i : ℤ) + 1))) := by
  simp only [classify]
  rw [if_pos hgap, if_neg (not_lt.mpr hraw),
    pyTrunc_intCast_div _ _ hraw (by omega)]

/-- Last total 100000 observed at day 0. -/
def rowGap : StreamHistory := { date := 0, track_id := 1, total_streams := 100000 }

/-- Claim C4, counterexample: last total 100000 three days ago, today's
acquired total 100007: raw_diff = 7, gap = 3; the three created records (two
imputed plus today's) all carry daily_delta floor(7/3) = 2, summing to 6,
not raw_diff = 7. -/
theorem claim_C4_counterexample :
    (((process_track [rowGap] 1 3 (100007, .requests, 1)).db.drop 1).map
        (fun r => r.daily_streams)).sum = 6 ∧
    (100007 : ℤ) - 100000 = 7 ∧ (6 : ℤ) ≠ 7 :=
  ⟨by decide, by decide, by decide⟩

/-- Claim C4, amended: with an existing last record, gap > 1 and
raw_diff ≥ 0, the engine creates one Imputed record for every date strictly
between last.date and today plus today's record, all with daily_delta
floor(raw_diff / gap); these deltas sum to raw_diff - raw_diff % gap, which
equals raw_diff exactly only when gap divides raw_diff (the floor division
loses the remainder). -/
theorem claim_C4_amended (db : List StreamHistory) (tid today : ℤ)
    (acq : ℤ × ScrapeMethod × ℚ) (l : StreamHistory)
    (hfresh : has_record_on db tid today = false)
    (hl : last_record db tid = some l)
    (hgap : 1 < today - l.date)
    (hnz : acq.1 ≠ 0)
    (hraw : 0 ≤ acq.1 - l.total_streams) :
    ((process_track db tid today acq).db.drop db.length).map (fun r => r.daily_streams) =
      List.replicate (today - l.date).toNat
        ((acq.1 - l.total_streams) / (today - l.date)) ∧
    ((process_track db tid today acq).db.drop db.length).map (fun r => r.date) =
      (List.range (today - l.date).toNat).map (fun (i : ℕ) => l.date + (i : ℤ) + 1) ∧
    ((process_track db tid today acq).db.drop db.length).map (fun r => r.is_imputed) =
      List.replicate (today - l.date).toNat true ∧
    (((process_track db tid today acq).db.drop db.length).map
        (fun r => r.daily_streams)).sum =
      (acq.1 - l.total_streams) - (acq.1 - l.total_streams) % (today - l.date) := by
  have hbeq : (acq.1 == 0) = false := beq_eq_false_iff_ne.mpr hnz
  have hcls := classify_imputed tid today acq.1 l hgap hraw
  have htn : (today - l.date - 1).toNat + 1 = (today - l.date).toNat := by omega
  simp only [process_track, hfresh, Bool.false_eq_true, if_false, hl, hbeq, hcls,
    List.append_assoc, List.drop_left]
  have hmapd : ∀ rec : StreamHistory,
      rec.daily_streams = (acq.1 - l.total_streams) / (today - l.date) →
      (((List.range (today - l.date - 1).toNat).map
          (fun (i : ℕ) =>
            imputed_row tid l ((acq.1 - l.total_streams) / (today - l.date)) ((i : ℤ) + 1)))
        ++ [rec]).map (fun r => r.daily_streams) =
      List.replicate (today - l.date).toNat
        ((acq.1 - l.total_streams) / (today - l.date)) := by
    intro rec hrec
    rw [List.map_append, List.map_map]
    have hcomp : ((fun (r : StreamHistory) => r.daily_streams) ∘
        (fun (i : ℕ) =>
          imputed_row tid l ((acq.1 - l.total_streams) / (today - l.date)) ((i : ℤ) + 1))) =
        (fun (i : ℕ) => (acq.1 - l.total_streams) / (today - l.date)) := rfl
    rw [hcomp, List.map_const', List.length_range, List.map_cons, List.map_nil, hrec,
      ← List.replicate_succ', htn]
  refine ⟨hmapd _ rfl, ?_, ?_, ?_⟩
  · rw [List.map_append, List.map_map]
    have hcomp2 : ((fun (r : StreamHistory) => r.date) ∘
        (fun (i : ℕ) =>
          imputed_row tid l ((acq.1 - l.total_streams) / (today - l.date)) ((i : ℤ) + 1))) =
        (fun (i : ℕ) => l.date + ((i : ℤ) + 1)) := rfl
    rw [hcomp2, List.map_cons, List.map_nil, ← htn, List.range_succ, List.map_append]
    congr 1
    · exact List.map_congr_left (fun i _ => by ring)
    · show [today] = [l.date + (((today - l.date - 1).toNat : ℕ) : ℤ) + 1]
      have hc : (((today - l.date - 1).toNat : ℕ) : ℤ) = today - l.date - 1 :=
        Int.toNat_of_nonneg (by omega)
      rw [hc]
      congr 1
      omega
  · rw [List.map_append, List.map_map]
    have hcomp3 : ((fun (r : StreamHistory) => r.is_imputed) ∘
        (fun (i : ℕ) =>
          imputed_row tid l ((acq.1 - l.total_streams) / (today - l.date)) ((i : ℤ) + 1))) =
        (fun (i : ℕ) => true) := rfl
    rw [hcomp3, List.map_const', List.length_range, List.map_cons, List.map_nil]
    show List.replicate (today - l.date - 1).toNat true ++ [true] = _
    rw [← List.replicate_succ', htn]
  · rw [hmapd _ rfl, List.sum_replicate, nsmul_eq_mul]
    have h1 : ((today - l.date).toNat : ℤ) = today - l.date := Int.toNat_of_nonneg (by omega)
    rw [h1]
    have h2 := Int.ediv_add_emod (acq.1 - l.total_streams) (today - l.date)
    linarith

/-- Claim C4, witness at the spec's example: last total 100000 three days
ago, today's total 106000; raw_diff 6000 divides evenly by gap 3. -/
theorem claim_C4_witness :
    ((process_track [rowGap] 1 3 (106000, .requests, 1)).db.drop [rowGap].length).map
        (fun r => r.daily_streams) =
      List.replicate (3 - rowGap.date).toNat
        ((106000 - rowGap.total_streams) / (3 - rowGap.date)) ∧
    ((process_track [rowGap] 1 3 (106000, .requests, 1)).db.drop [rowGap].length).map
        (fun r => r.date) =
      (List.range (3 - rowGap.date).toNat).map (fun (i : ℕ) => rowGap.date + (i : ℤ) + 1) ∧
    ((process_track [rowGap] 1 3 (106000, .requests, 1)).db.drop [rowGap].length).map
        (fun r => r.is_imputed) =
      List.replicate (3 - rowGap.date).toNat true ∧
    (((process_track [rowGap] 1 3 (106000, .requests, 1)).db.drop [rowGap].length).map
        (fun r => r.daily_streams)).sum =
      (106000 - rowGap.total_streams) - (106000 - rowGap.total_streams) % (3 - rowGap.date) :=
  claim_C4_amended [rowGap] 1 3 (106000, .requests, 1) rowGap
    (by decide) (by decide) (by decide) (by decide) (by decide)

/-- The positive entry-over-entry deltas of a most-recent-first history, in
the spec's formulation (pairwise differences of adjacent entries, keeping the
strictly positive ones). -/
def positive_changes (h : List StreamHistory) : List ℤ :=
  (List.zipWith (fun a b => a.total_streams - b.total_streams) h h.tail).filter
    (fun c => decide (0 < c))

lemma daily_changes_eq : ∀ h : List StreamHistory, daily_changes h = positive_changes h
  | [] => rfl
  | [a] => rfl
  | a :: b :: r => by
    have ih := daily_changes_eq (b :: r)
    simp only [daily_changes, positive_changes, List.tail_cons, List.zipWith_cons_cons,
      List.filter_cons, decide_eq_true_eq] at ih ⊢
    rw [ih]

/-- Claim C9: for an item whose ledger query returns at least one
non-simulated entry, the Historical Estimate tier projects
last_known_total + (average of the positive deltas among the returned
entries) × (days since the last known entry) with confidence
min(points/7, 1) × 0.8; with fewer than 2 points or no positive deltas it
returns the last known total verbatim with confidence 0.5 (≥ 3 points) or
0.3; and it fails (returns (none, 0)) exactly when there is no history. -/
theorem claim_C9_estimate (db : List StreamHistory) (tid today : ℤ)
    (last : StreamHistory) (rest : List StreamHistory)
    (hq : query_recent_real db tid = last :: rest) :
    (estimate_streams_from_history db tid today).1 ≠ none ∧
    (2 ≤ (last :: rest).length → positive_changes (last :: rest) ≠ [] →
      last.date < today →
      estimate_streams_from_history db tid today =
        (some (pyTrunc ((last.total_streams : ℚ) +
            ((positive_changes (last :: rest)).sum : ℚ) /
              ((positive_changes (last :: rest)).length : ℚ) *
            ((today - last.date : ℤ) : ℚ))),
         min (((last :: rest).length : ℚ) / 7) 1 * (4/5))) ∧
    ((last :: rest).length < 2 ∨ positive_changes (last :: rest) = [] →
      estimate_streams_from_history db tid today =
        (some last.total_streams,
         if 3 ≤ (last :: rest).length then (1 : ℚ)/2 else (3 : ℚ)/10)) ∧
    (∀ db2 : List StreamHistory, query_recent_real db2 tid = [] →
      estimate_streams_from_history db2 tid today = (none, 0)) := by
  have hq2 : estimate_streams_from_history db tid today =
      estimate_from_rows (last :: rest) today := by
    unfold estimate_streams_from_history
    rw [hq]
  refine ⟨?_, ?_, ?_, ?_⟩
  · rw [hq2]
    simp only [estimate_from_rows]
    split_ifs <;> simp
  · intro h2 hch hd
    rw [hq2]
    simp only [estimate_from_rows]
    rw [daily_changes_eq, if_pos ⟨h2, hch⟩, if_neg (by omega : ¬ today - last.date ≤ 0)]
  · intro hcase
    rw [hq2]
    simp only [estimate_from_rows]
    rw [daily_changes_eq, if_neg ?hneg]
    case hneg =>
      rintro ⟨ha, hb⟩
      rcases hcase with h | h
      · omega
      · exact hb h
  · intro db2 h0
    unfold estimate_streams_from_history
    rw [h0]
    rfl

/-- Most recent real entry of the witness track. -/
def histNew : StreamHistory := { date := 10, track_id := 1, total_streams := 2000 }

/-- Older real entry of the witness track. -/
def histOld : StreamHistory := { date := 9, track_id := 1, total_streams := 1500 }

/-- Claim C9, witness: two real entries growing by 500/day, queried today at
day 12. -/
theorem claim_C9_witness :
    (estimate_streams_from_history [histOld, histNew] 1 12).1 ≠ none ∧
    (2 ≤ (histNew :: [histOld]).length → positive_changes (histNew :: [histOld]) ≠ [] →
      histNew.date < 12 →
      estimate_streams_from_history [histOld, histNew] 1 12 =
        (some (pyTrunc ((histNew.total_streams : ℚ) +
            ((positive_changes (histNew :: [histOld])).sum : ℚ) /
              ((positive_changes (histNew :: [histOld])).length : ℚ) *
            (((12 : ℤ) - histNew.date : ℤ) : ℚ))),
         min (((histNew :: [histOld]).length : ℚ) / 7) 1 * (4/5))) ∧
    ((histNew :: [histOld]).length < 2 ∨ positive_changes (histNew :: [histOld]) = [] →
      estimate_streams_from_history [histOld, histNew] 1 12 =
        (some histNew.total_streams,
         if 3 ≤ (histNew :: [histOld]).length then (1 : ℚ)/2 else (3 : ℚ)/10)) ∧
    (∀ db2 : List StreamHistory, query_recent_real db2 1 = [] →
      estimate_streams_from_history db2 1 12 = (none, 0)) :=
  claim_C9_estimate [histOld, histNew] 1 12 histNew [histOld] (by decide)

end SpotifyTracker
